import Mathlib

/-!
Verification of the feature-selection / report-generation page in
`src/app/page.tsx`. The React component state and its event handlers are
shallowly embedded as pure Lean functions; the asynchronous fetch is made
explicit by passing the outcome of the outbound request as a value.
-/

namespace Fit

/-- Feature record from the source: `{ symbol: string, name: string }`. -/
structure Feature where
  symbol : String
  name : String
deriving DecidableEq, Repr

/-- The static catalog `FEATURES`, after the load-time sort by `name`
(the source sorts the literal array with `localeCompare`, which orders
these five ASCII names alphabetically). -/
def FEATURES : List Feature :=
  [ ⟨"AutoReminders", "Automated Payment Reminders"⟩,
    ⟨"InvoiceGen", "Generate Professional Invoices"⟩,
    ⟨"Dashboard", "Income & Overdue Summary"⟩,
    ⟨"Integrations", "Payment Platform Integrations"⟩,
    ⟨"TrackPayments", "Track Payment Status"⟩ ]

/-- The three UI stages of `useState<'input' | 'loading' | 'report'>`. -/
inductive Stage where
  | input
  | loading
  | report
deriving DecidableEq, Repr

/-- A decoded JSON value, as produced by `aiResponse.json()`, restricted
to the scalar shapes. The shape is unconstrained by the component: it
stores whatever value arrives, string or not. -/
inductive Json where
  | null
  | bool (b : Bool)
  | num (n : Int)
  | str (s : String)
deriving DecidableEq, Repr

/-- The component state: the five `useState` hooks of
`FreelancerInvoiceTracker`. `error` is `string | null` in the source, so it
is embedded as `Option String`; note `setError('')` stores `some ""`. -/
structure AppState where
  selectedFeatures : List Feature
  error : Option String
  isLoading : Bool
  report : Json
  stage : Stage
deriving DecidableEq, Repr

/-- Initial state of the hooks: `[]`, `null`, `false`, `''`, `'input'`. -/
def initState : AppState :=
  { selectedFeatures := []
    error := none
    isLoading := false
    report := Json.str ""
    stage := Stage.input }

/-- The UI shows the error banner only when `error` is truthy: both `null`
and the empty string count as no error, so ErrorMessage is cleared exactly
when this is `true`. -/
def errCleared (e : Option String) : Bool :=
  e.getD "" == ""

/-- `handleFeatureSelect` from the source: reject when
`selectedFeatures.length >= 3`, then when
`selectedFeatures.some(f => f.symbol === feature.symbol)`, else append and
`setError('')`. -/
def handleFeatureSelect (s : AppState) (feature : Feature) : AppState :=
  if s.selectedFeatures.length ≥ 3 then
    { s with error := some "Maximum 3 features allowed" }
  else if s.selectedFeatures.any (fun f => f.symbol == feature.symbol) then
    { s with error := some "Feature already selected" }
  else
    { s with selectedFeatures := s.selectedFeatures ++ [feature]
             error := some "" }

/-- `handleRemoveFeature` from the source:
`selectedFeatures.filter(f => f.symbol !== symbol)` and `setError('')`. -/
def handleRemoveFeature (s : AppState) (symbol : String) : AppState :=
  { s with selectedFeatures := s.selectedFeatures.filter (fun f => f.symbol != symbol)
           error := some "" }

/-- The outcome of the single `fetch` call: a transport error (the fetch
promise rejects), or a response with its `ok` flag and its decoded JSON
body (`none` when `aiResponse.json()` throws on a malformed body). -/
inductive FetchOutcome where
  | networkError
  | response (ok : Bool) (body : Option Json)
deriving DecidableEq, Repr

/-- An outcome the `try`/`catch` treats as failure: everything except an
`ok` response with a well-formed body. -/
def isFailure : FetchOutcome → Bool
  | FetchOutcome.response true (some _) => false
  | _ => true

/-- Resolution of the outstanding request: the continuation of
`handleGenerateReport` after `await fetch`. On success (`ok` and a
well-formed body) it runs `setReport(reportData); setStage('report')`; on
any failure the `catch` runs `setError(...); setStage('input')`; the
`finally` runs `setIsLoading(false)` either way. -/
def settleRequest (s : AppState) : FetchOutcome → AppState
  | FetchOutcome.response true (some v) =>
      { s with report := v, stage := Stage.report, isLoading := false }
  | _ =>
      { s with error := some "Failed to generate report. Please try again."
               stage := Stage.input
               isLoading := false }

/-- `handleGenerateReport` from the source, as one function from the state
and the fetch outcome to the new state together with the number of
outbound requests issued (0 or 1). An empty selection only sets the
validation message; otherwise the handler sets `stage = 'loading'` and
`isLoading = true`, issues exactly one request, and settles it. -/
def handleGenerateReport (s : AppState) (o : FetchOutcome) : AppState × Nat :=
  if s.selectedFeatures.length = 0 then
    ({ s with error := some "Please select at least one feature" }, 0)
  else
    (settleRequest { s with stage := Stage.loading, isLoading := true } o, 1)

/-- The `onClick` of the Try Another Selection button: `setStage('input')`
and nothing else. -/
def handleTryAnother (s : AppState) : AppState :=
  { s with stage := Stage.input }

/-- A user-level operation on the selection, for claims quantifying over
sequences of `select` and `remove` calls. -/
inductive Op where
  | sel (f : Feature)
  | rem (symbol : String)

/-- Apply one selection operation through the corresponding handler. -/
def applyOp (s : AppState) : Op → AppState
  | Op.sel f => handleFeatureSelect s f
  | Op.rem symbol => handleRemoveFeature s symbol

/-- Run a sequence of selection operations from the empty initial state. -/
def applyOps (ops : List Op) : AppState :=
  ops.foldl applyOp initState

/-- The selection invariant stated by the spec: at most three entries and
no two entries with the same symbol. -/
def validSelection (l : List Feature) : Prop :=
  l.length ≤ 3 ∧ (l.map Feature.symbol).Nodup

instance (l : List Feature) : Decidable (validSelection l) := by
  unfold validSelection
  infer_instance

/-!
UI-level trace model. The rendered page determines which events a user can
fire in a given state; the outstanding-request count makes the asynchronous
fetch observable. Note which widgets the JSX gates on the stage: the
feature grid renders only when `stage === 'input'`, the Try Another
Selection button only when `stage === 'report'`, but the selected-feature
chips render whenever the selection is non-empty and the Generate Insights
button renders in every stage, disabled only when the selection is empty.
-/

/-- A running page: the component state plus the number of outbound
requests currently in flight. -/
structure Sys where
  app : AppState
  inFlight : Nat
deriving DecidableEq, Repr

/-- The page at load time: initial hook state, no request in flight. -/
def initSys : Sys :=
  { app := initState, inFlight := 0 }

/-- The user-firable events plus the resolution of an outstanding fetch. -/
inductive Ev where
  | clickFeature (f : Feature)
  | clickRemove (symbol : String)
  | clickGenerate
  | resolve (o : FetchOutcome)
  | clickTryAnother

/-- One UI step: each constructor guard is the rendering and `disabled`
condition under which the source page lets the event fire, and the effect
is the corresponding handler. `clickGenerate` performs the synchronous
prefix of `handleGenerateReport` (the empty-selection guard cannot fire
because the button is disabled then) and puts one more request in flight;
`resolve` runs the continuation `settleRequest` on the state current at
resolution time. -/
inductive Step : Sys → Ev → Sys → Prop where
  | clickFeature (s : Sys) (f : Feature) :
      s.app.stage = Stage.input →
      f ∈ FEATURES →
      s.app.selectedFeatures.any (fun g => g.symbol == f.symbol) = false →
      Step s (Ev.clickFeature f) ⟨handleFeatureSelect s.app f, s.inFlight⟩
  | clickRemove (s : Sys) (symbol : String) :
      symbol ∈ s.app.selectedFeatures.map Feature.symbol →
      Step s (Ev.clickRemove symbol) ⟨handleRemoveFeature s.app symbol, s.inFlight⟩
  | clickGenerate (s : Sys) :
      s.app.selectedFeatures ≠ [] →
      Step s Ev.clickGenerate
        ⟨{ s.app with stage := Stage.loading, isLoading := true }, s.inFlight + 1⟩
  | resolve (s : Sys) (o : FetchOutcome) :
      0 < s.inFlight →
      Step s (Ev.resolve o) ⟨settleRequest s.app o, s.inFlight - 1⟩
  | clickTryAnother (s : Sys) :
      s.app.stage = Stage.report →
      Step s Ev.clickTryAnother ⟨handleTryAnother s.app, s.inFlight⟩

/-- States reachable from page load by UI steps. -/
inductive Reachable : Sys → Prop where
  | init : Reachable initSys
  | step {s s' : Sys} {e : Ev} : Reachable s → Step s e s' → Reachable s'

/-! Invariant preservation lemmas for the selection handlers. -/

lemma select_preserves_validSelection (s : AppState) (f : Feature)
    (h : validSelection s.selectedFeatures) :
    validSelection (handleFeatureSelect s f).selectedFeatures := by
  obtain ⟨hlen, hnd⟩ := h
  unfold handleFeatureSelect
  split
  · exact ⟨hlen, hnd⟩
  · split
    · exact ⟨hlen, hnd⟩
    · rename_i hge hany
      refine ⟨?_, ?_⟩
      · simp only [List.length_append, List.length_singleton]
        omega
      · simp only [List.map_append, List.map_singleton]
        rw [List.nodup_append]
        refine ⟨hnd, List.nodup_singleton _, ?_⟩
        intro a ha hb
        simp only [List.mem_singleton] at hb
        subst hb
        simp only [List.mem_map] at ha
        obtain ⟨g, hg, hgs⟩ := ha
        have : s.selectedFeatures.any (fun g => g.symbol == f.symbol) = true := by
          simp only [List.any_eq_true]
          exact ⟨g, hg, by simp [hgs]⟩
        simp [this] at hany

lemma remove_preserves_validSelection (s : AppState) (symbol : String)
    (h : validSelection s.selectedFeatures) :
    validSelection (handleRemoveFeature s symbol).selectedFeatures := by
  obtain ⟨hlen, hnd⟩ := h
  unfold handleRemoveFeature
  refine ⟨le_trans (List.length_filter_le _ _) hlen, ?_⟩
  have hsub : List.Sublist
      ((s.selectedFeatures.filter (fun f => f.symbol != symbol)).map Feature.symbol)
      (s.selectedFeatures.map Feature.symbol) :=
    (List.filter_sublist _).map _
  exact hnd.sublist hsub

lemma applyOp_preserves_validSelection (s : AppState) (op : Op)
    (h : validSelection s.selectedFeatures) :
    validSelection (applyOp s op).selectedFeatures := by
  cases op with
  | sel f => exact select_preserves_validSelection s f h
  | rem symbol => exact remove_preserves_validSelection s symbol h

lemma foldl_preserves_validSelection (ops : List Op) :
    ∀ s : AppState, validSelection s.selectedFeatures →
      validSelection ((ops.foldl applyOp s).selectedFeatures) := by
  induction ops with
  | nil => intro s h; exact h
  | cons op rest ih =>
      intro s h
      exact ih (applyOp s op) (applyOp_preserves_validSelection s op h)

/-- Claim C1: for every sequence of select and remove operations starting
from the empty selection, the selection length never exceeds 3 and no two
entries share a symbol. -/
theorem selection_invariant (ops : List Op) :
    (applyOps ops).selectedFeatures.length ≤ 3 ∧
    ((applyOps ops).selectedFeatures.map Feature.symbol).Nodup := by
  have h : validSelection (applyOps ops).selectedFeatures :=
    foldl_preserves_validSelection ops initState (by simp [initState, validSelection])
  exact h

/-! Concrete catalog entries, used by the closed witness theorems. -/

def fAuto : Feature := ⟨"AutoReminders", "Automated Payment Reminders"⟩

def fInvoice : Feature := ⟨"InvoiceGen", "Generate Professional Invoices"⟩

def fDash : Feature := ⟨"Dashboard", "Income & Overdue Summary"⟩

def fTrack : Feature := ⟨"TrackPayments", "Track Payment Status"⟩

/-- A state whose selection already holds three distinct features. -/
def sFull : AppState := { initState with selectedFeatures := [fAuto, fInvoice, fDash] }

lemma any_symbol_iff_mem (l : List Feature) (f : Feature) :
    l.any (fun g => g.symbol == f.symbol) = true ↔
      f.symbol ∈ l.map Feature.symbol := by
  simp only [List.any_eq_true, List.mem_map, beq_iff_eq]

/-- Claim C2: on a selection state (length at most 3), select fails with
the length message and no state change when the selection has 3 entries,
fails with the duplicate message and no state change when the symbol is
already present, and otherwise appends the feature at the end and clears
ErrorMessage. -/
theorem handleFeatureSelect_spec (s : AppState) (f : Feature)
    (hinv : s.selectedFeatures.length ≤ 3) :
    (s.selectedFeatures.length = 3 →
      handleFeatureSelect s f = { s with error := some "Maximum 3 features allowed" }) ∧
    (s.selectedFeatures.length ≠ 3 →
      f.symbol ∈ s.selectedFeatures.map Feature.symbol →
      handleFeatureSelect s f = { s with error := some "Feature already selected" }) ∧
    (s.selectedFeatures.length ≠ 3 →
      f.symbol ∉ s.selectedFeatures.map Feature.symbol →
      handleFeatureSelect s f =
        { s with selectedFeatures := s.selectedFeatures ++ [f], error := some "" } ∧
      errCleared (handleFeatureSelect s f).error = true) := by
  refine ⟨?_, ?_, ?_⟩
  · intro h3
    unfold handleFeatureSelect
    rw [if_pos (by omega)]
  · intro hne hmem
    unfold handleFeatureSelect
    rw [if_neg (by omega), if_pos ((any_symbol_iff_mem _ _).2 hmem)]
  · intro hne hmem
    have hany : s.selectedFeatures.any (fun g => g.symbol == f.symbol) = false := by
      rw [Bool.eq_false_iff]
      intro hc
      exact hmem ((any_symbol_iff_mem _ _).1 hc)
    have heq : handleFeatureSelect s f =
        { s with selectedFeatures := s.selectedFeatures ++ [f], error := some "" } := by
      unfold handleFeatureSelect
      rw [if_neg (by omega), if_neg (by simp [hany])]
    exact ⟨heq, by rw [heq]; rfl⟩

/-- Witness for C2 at a concrete input: selecting TrackPayments on the
empty initial selection appends it and clears the error. -/
theorem handleFeatureSelect_spec_witness :
    initState.selectedFeatures.length ≤ 3 ∧
    (initState.selectedFeatures.length ≠ 3 →
      fTrack.symbol ∉ initState.selectedFeatures.map Feature.symbol →
      handleFeatureSelect initState fTrack =
        { initState with
            selectedFeatures := initState.selectedFeatures ++ [fTrack]
            error := some "" } ∧
      errCleared (handleFeatureSelect initState fTrack).error = true) :=
  ⟨by decide, (handleFeatureSelect_spec initState fTrack (by decide)).2.2⟩

/-- Claim C10: with 3 entries selected and the symbol already present, the
length-limit message wins: the code checks the limit before the duplicate. -/
theorem limit_check_precedes_duplicate (s : AppState) (f : Feature)
    (h3 : s.selectedFeatures.length = 3)
    (_hdup : f.symbol ∈ s.selectedFeatures.map Feature.symbol) :
    (handleFeatureSelect s f).error = some "Maximum 3 features allowed" ∧
    (handleFeatureSelect s f).error ≠ some "Feature already selected" := by
  have heq : handleFeatureSelect s f =
      { s with error := some "Maximum 3 features allowed" } := by
    unfold handleFeatureSelect
    rw [if_pos (by omega)]
  rw [heq]
  exact ⟨rfl, by simp⟩

/-- Witness for C10: reselecting AutoReminders when it is one of three
selected features reports the maximum message, not the duplicate one. -/
theorem limit_check_precedes_duplicate_witness :
    sFull.selectedFeatures.length = 3 ∧
    fAuto.symbol ∈ sFull.selectedFeatures.map Feature.symbol ∧
    (handleFeatureSelect sFull fAuto).error = some "Maximum 3 features allowed" ∧
    (handleFeatureSelect sFull fAuto).error ≠ some "Feature already selected" :=
  ⟨by decide, by decide,
    limit_check_precedes_duplicate sFull fAuto (by decide) (by decide)⟩

/-- A state with the single feature InvoiceGen selected. -/
def sOne : AppState := { initState with selectedFeatures := [fInvoice] }

/-- Claim C4: with a non-empty selection, any failing outcome (transport
error, non-ok status, or malformed body) sets the generic failure message,
returns the stage to input, leaves the selection unchanged, and issues
exactly one request. -/
theorem generate_failure_spec (s : AppState) (o : FetchOutcome)
    (hne : s.selectedFeatures ≠ []) (hf : isFailure o = true) :
    (handleGenerateReport s o).1.error
        = some "Failed to generate report. Please try again." ∧
    (handleGenerateReport s o).1.stage = Stage.input ∧
    (handleGenerateReport s o).1.selectedFeatures = s.selectedFeatures ∧
    (handleGenerateReport s o).2 = 1 := by
  have hlen : ¬ s.selectedFeatures.length = 0 := by
    simpa [List.length_eq_zero] using hne
  unfold handleGenerateReport
  rw [if_neg hlen]
  match o with
  | FetchOutcome.networkError => exact ⟨rfl, rfl, rfl, rfl⟩
  | FetchOutcome.response false _ => exact ⟨rfl, rfl, rfl, rfl⟩
  | FetchOutcome.response true none => exact ⟨rfl, rfl, rfl, rfl⟩
  | FetchOutcome.response true (some _) => simp [isFailure] at hf

/-- Witness for C4: with InvoiceGen selected, an HTTP 500 (non-ok)
response yields the generic message, stage input, selection unchanged. -/
theorem generate_failure_spec_witness :
    sOne.selectedFeatures ≠ [] ∧
    isFailure (FetchOutcome.response false none) = true ∧
    ((handleGenerateReport sOne (FetchOutcome.response false none)).1.error
        = some "Failed to generate report. Please try again." ∧
     (handleGenerateReport sOne (FetchOutcome.response false none)).1.stage = Stage.input ∧
     (handleGenerateReport sOne (FetchOutcome.response false none)).1.selectedFeatures
        = sOne.selectedFeatures ∧
     (handleGenerateReport sOne (FetchOutcome.response false none)).2 = 1) :=
  ⟨by decide, by decide,
    generate_failure_spec sOne (FetchOutcome.response false none) (by decide) (by decide)⟩

/-- Claim C5: with a non-empty selection, a successful outcome stores the
decoded body as the report with no validation of its shape (any JSON value
is stored verbatim), and the stage becomes report; one request is made. -/
theorem generate_success_spec (s : AppState) (v : Json)
    (hne : s.selectedFeatures ≠ []) :
    (handleGenerateReport s (FetchOutcome.response true (some v))).1.report = v ∧
    (handleGenerateReport s (FetchOutcome.response true (some v))).1.stage = Stage.report ∧
    (handleGenerateReport s (FetchOutcome.response true (some v))).1.selectedFeatures
        = s.selectedFeatures ∧
    (handleGenerateReport s (FetchOutcome.response true (some v))).2 = 1 := by
  have hlen : ¬ s.selectedFeatures.length = 0 := by
    simpa [List.length_eq_zero] using hne
  unfold handleGenerateReport
  rw [if_neg hlen]
  exact ⟨rfl, rfl, rfl, rfl⟩

/-- Witness for C5 at a non-string payload: the number 42 is stored as the
report unchanged, showing no shape validation happens. -/
theorem generate_success_spec_witness :
    sOne.selectedFeatures ≠ [] ∧
    ((handleGenerateReport sOne (FetchOutcome.response true (some (Json.num 42)))).1.report
        = Json.num 42 ∧
     (handleGenerateReport sOne (FetchOutcome.response true (some (Json.num 42)))).1.stage
        = Stage.report ∧
     (handleGenerateReport sOne
        (FetchOutcome.response true (some (Json.num 42)))).1.selectedFeatures
        = sOne.selectedFeatures ∧
     (handleGenerateReport sOne (FetchOutcome.response true (some (Json.num 42)))).2 = 1) :=
  ⟨by decide, generate_success_spec sOne (Json.num 42) (by decide)⟩

/-- Claim C7: with an empty selection in stage input, the generate action
fails its guard: stage stays input, the empty-selection message is set,
and no outbound request is issued. -/
theorem generate_empty_selection (s : AppState) (o : FetchOutcome)
    (hstage : s.stage = Stage.input) (hemp : s.selectedFeatures = []) :
    (handleGenerateReport s o).1.stage = Stage.input ∧
    (handleGenerateReport s o).1.error = some "Please select at least one feature" ∧
    (handleGenerateReport s o).1.selectedFeatures = s.selectedFeatures ∧
    (handleGenerateReport s o).2 = 0 := by
  have hlen : s.selectedFeatures.length = 0 := by simp [hemp]
  unfold handleGenerateReport
  rw [if_pos hlen]
  exact ⟨hstage, rfl, rfl, rfl⟩

/-- Witness for C7 at the freshly loaded page. -/
theorem generate_empty_selection_witness :
    initState.stage = Stage.input ∧
    initState.selectedFeatures = [] ∧
    ((handleGenerateReport initState FetchOutcome.networkError).1.stage = Stage.input ∧
     (handleGenerateReport initState FetchOutcome.networkError).1.error
        = some "Please select at least one feature" ∧
     (handleGenerateReport initState FetchOutcome.networkError).1.selectedFeatures
        = initState.selectedFeatures ∧
     (handleGenerateReport initState FetchOutcome.networkError).2 = 0) :=
  ⟨rfl, rfl,
    generate_empty_selection initState FetchOutcome.networkError rfl rfl⟩

/-- Counterexample to claim C6: from a state carrying an error message,
a fully successful report generation reaches stage report yet leaves
ErrorMessage set — the success path of `handleGenerateReport` never calls
`setError`. -/
theorem success_generation_keeps_error_cex :
    (handleGenerateReport { sOne with error := some "Maximum 3 features allowed" }
        (FetchOutcome.response true (some (Json.str "Report text")))).1.stage
      = Stage.report ∧
    (handleGenerateReport { sOne with error := some "Maximum 3 features allowed" }
        (FetchOutcome.response true (some (Json.str "Report text")))).1.error
      = some "Maximum 3 features allowed" ∧
    errCleared (handleGenerateReport { sOne with error := some "Maximum 3 features allowed" }
        (FetchOutcome.response true (some (Json.str "Report text")))).1.error = false := by
  decide

/-- Claim C6 as amended: successful select and successful remove clear
ErrorMessage, but a successful report generation leaves ErrorMessage
exactly as it was. -/
theorem errorMessage_clearing :
    (∀ (s : AppState) (f : Feature),
        s.selectedFeatures.length < 3 →
        f.symbol ∉ s.selectedFeatures.map Feature.symbol →
        errCleared (handleFeatureSelect s f).error = true) ∧
    (∀ (s : AppState) (symbol : String),
        errCleared (handleRemoveFeature s symbol).error = true) ∧
    (∀ (s : AppState) (v : Json), s.selectedFeatures ≠ [] →
        (handleGenerateReport s (FetchOutcome.response true (some v))).1.error
          = s.error) := by
  refine ⟨?_, ?_, ?_⟩
  · intro s f hlt hmem
    have hany : s.selectedFeatures.any (fun g => g.symbol == f.symbol) = false := by
      rw [Bool.eq_false_iff]
      intro hc
      exact hmem ((any_symbol_iff_mem _ _).1 hc)
    unfold handleFeatureSelect
    rw [if_neg (by omega), if_neg (by simp [hany])]
    rfl
  · intro s symbol
    rfl
  · intro s v hne
    have hlen : ¬ s.selectedFeatures.length = 0 := by
      simpa [List.length_eq_zero] using hne
    unfold handleGenerateReport
    rw [if_neg hlen]
    rfl

/-- Claim C9: from stage report, the Try Another Selection action moves
the stage to input and preserves the selection contents. -/
theorem tryAnother_preserves_selection (s : AppState) (_h : s.stage = Stage.report) :
    (handleTryAnother s).stage = Stage.input ∧
    (handleTryAnother s).selectedFeatures = s.selectedFeatures :=
  ⟨rfl, rfl⟩

/-- Witness for C9 at a concrete report-stage state. -/
theorem tryAnother_preserves_selection_witness :
    ({ sOne with stage := Stage.report } : AppState).stage = Stage.report ∧
    ((handleTryAnother { sOne with stage := Stage.report }).stage = Stage.input ∧
     (handleTryAnother { sOne with stage := Stage.report }).selectedFeatures
        = ({ sOne with stage := Stage.report } : AppState).selectedFeatures) :=
  ⟨rfl, tryAnother_preserves_selection { sOne with stage := Stage.report } rfl⟩

/-! Claim C8. The claim quantifies over every selection state and every
symbol; it fails when the symbol is absent and the selection is full,
because the remove is then a no-op and the select hits the length limit. -/

lemma filter_length_lt_of_mem_not {α : Type} (l : List α) (p : α → Bool) (x : α)
    (hx : x ∈ l) (hpx : p x = false) : (l.filter p).length < l.length := by
  induction l with
  | nil => cases hx
  | cons a t ih =>
      rw [List.filter_cons]
      rcases List.mem_cons.1 hx with h | h
      · subst h
        rw [hpx]
        exact Nat.lt_succ_of_le (List.length_filter_le p t)
      · cases hpa : p a with
        | true =>
            simp only [hpa, cond_true, List.length_cons]
            exact Nat.succ_lt_succ (ih h)
        | false =>
            simp only [hpa, cond_false, List.length_cons]
            exact Nat.lt_succ_of_le (Nat.le_of_lt (ih h))

/-- Counterexample to claim C8 as stated: selection [AutoReminders,
InvoiceGen, Dashboard] is a valid selection state; removing the absent
symbol TrackPayments is a no-op, and selecting TrackPayments afterwards
fails with the length-limit message instead of succeeding. -/
theorem remove_then_select_fails_cex :
    validSelection sFull.selectedFeatures ∧
    (handleFeatureSelect (handleRemoveFeature sFull "TrackPayments") fTrack).selectedFeatures
      = (handleRemoveFeature sFull "TrackPayments").selectedFeatures ∧
    (handleFeatureSelect (handleRemoveFeature sFull "TrackPayments") fTrack).error
      = some "Maximum 3 features allowed" := by
  decide

/-- Claim C8 as amended: on a selection state satisfying the length
invariant, removing a symbol that is present in the selection and then
selecting a feature carrying that symbol succeeds: the feature is appended
and ErrorMessage is cleared. -/
theorem remove_then_select_succeeds (s : AppState) (symbol : String) (f : Feature)
    (hlen : s.selectedFeatures.length ≤ 3)
    (hmem : symbol ∈ s.selectedFeatures.map Feature.symbol)
    (hf : f.symbol = symbol) :
    (handleFeatureSelect (handleRemoveFeature s symbol) f).selectedFeatures
      = (handleRemoveFeature s symbol).selectedFeatures ++ [f] ∧
    errCleared (handleFeatureSelect (handleRemoveFeature s symbol) f).error = true := by
  obtain ⟨g, hg, hgs⟩ := List.mem_map.1 hmem
  have hrlt : (s.selectedFeatures.filter (fun x => x.symbol != symbol)).length
      < s.selectedFeatures.length :=
    filter_length_lt_of_mem_not _ _ g hg (by simp [hgs])
  have h1 : ¬ ((handleRemoveFeature s symbol).selectedFeatures.length ≥ 3) := by
    show ¬ ((s.selectedFeatures.filter (fun x => x.symbol != symbol)).length ≥ 3)
    omega
  have h2 : (handleRemoveFeature s symbol).selectedFeatures.any
      (fun x => x.symbol == f.symbol) = false := by
    show (s.selectedFeatures.filter (fun x => x.symbol != symbol)).any
        (fun x => x.symbol == f.symbol) = false
    rw [Bool.eq_false_iff]
    intro hc
    obtain ⟨x, hx, hxe⟩ := List.any_eq_true.1 hc
    have hxf : x.symbol ≠ symbol := by
      simpa using (List.mem_filter.1 hx).2
    exact hxf (by rw [← hf]; exact beq_iff_eq.1 hxe)
  have hsel : handleFeatureSelect (handleRemoveFeature s symbol) f =
      { handleRemoveFeature s symbol with
          selectedFeatures := (handleRemoveFeature s symbol).selectedFeatures ++ [f]
          error := some "" } := by
    unfold handleFeatureSelect
    rw [if_neg h1, if_neg (by simp [h2])]
  rw [hsel]
  exact ⟨rfl, rfl⟩

/-- Witness for the amended C8: removing InvoiceGen from a full selection
and reselecting it succeeds. -/
theorem remove_then_select_succeeds_witness :
    sFull.selectedFeatures.length ≤ 3 ∧
    "InvoiceGen" ∈ sFull.selectedFeatures.map Feature.symbol ∧
    fInvoice.symbol = "InvoiceGen" ∧
    ((handleFeatureSelect (handleRemoveFeature sFull "InvoiceGen") fInvoice).selectedFeatures
        = (handleRemoveFeature sFull "InvoiceGen").selectedFeatures ++ [fInvoice] ∧
     errCleared
        (handleFeatureSelect (handleRemoveFeature sFull "InvoiceGen") fInvoice).error
        = true) :=
  ⟨by decide, by decide, rfl,
    remove_then_select_succeeds sFull "InvoiceGen" fInvoice (by decide) (by decide) rfl⟩

/-! Claim C3. The JSX renders the Generate Insights button in every stage
(only the feature grid is gated on stage input), and `handleGenerateReport`
has no stage guard, so a second click during loading issues a second
request: two requests can be in flight at once. -/

/-- The page after selecting AutoReminders from the fresh page. -/
def sysOneSel : Sys := ⟨handleFeatureSelect initState fAuto, 0⟩

/-- The page after one Generate click: one request in flight. -/
def sysLoad1 : Sys := ⟨{ sysOneSel.app with stage := Stage.loading, isLoading := true }, 1⟩

/-- The page after a second Generate click while loading: two in flight. -/
def sysLoad2 : Sys := ⟨{ sysLoad1.app with stage := Stage.loading, isLoading := true }, 2⟩

lemma reachable_sysLoad2 : Reachable sysLoad2 := by
  have st1 : Step initSys (Ev.clickFeature fAuto) sysOneSel := by
    have h := Step.clickFeature initSys fAuto rfl (by decide) (by decide)
    exact h
  have h1 : Reachable sysOneSel := Reachable.step Reachable.init st1
  have st2 : Step sysOneSel Ev.clickGenerate sysLoad1 := by
    have h := Step.clickGenerate sysOneSel (by decide)
    exact h
  have st3 : Step sysLoad1 Ev.clickGenerate sysLoad2 := by
    have h := Step.clickGenerate sysLoad1 (by decide)
    exact h
  exact Reachable.step (Reachable.step h1 st2) st3

/-- Counterexample to claim C3 as stated: it is not true that every
reachable page state has at most one request in flight — clicking Generate
twice in a row reaches a state with two. -/
theorem single_request_in_flight_cex :
    ¬ (∀ s : Sys, Reachable s → s.inFlight ≤ 1) := by
  intro h
  have h2 := h sysLoad2 reachable_sysLoad2
  have he : sysLoad2.inFlight = 2 := rfl
  omega

/-- Claim C3 as amended: the generate action is enabled exactly when the
selection is non-empty, in every stage — not only in stage input — and
consequently a reachable state with two requests in flight exists. -/
theorem generate_enabled_in_every_stage :
    (∀ s : Sys, (∃ s', Step s Ev.clickGenerate s') ↔ s.app.selectedFeatures ≠ []) ∧
    (∃ s : Sys, Reachable s ∧ 2 ≤ s.inFlight) := by
  constructor
  · intro s
    constructor
    · rintro ⟨s', hs⟩
      cases hs with
      | clickGenerate hne => exact hne
    · intro hne
      exact ⟨_, Step.clickGenerate s hne⟩
  · exact ⟨sysLoad2, reachable_sysLoad2, by decide⟩

end Fit
